import Mathlib

/-!
# Verification of the ChatAion / Virtual Human backend

A shallow embedding of the parts of the repository that the claims are
about, together with theorems settling each claim:

* `backend/core/animation_service.py` — the MediaPipe-landmark to
  ARKit-blendshape facial animation pipeline (`AnimationService`);
* `backend/core/llm_service.py` and
  `VirtualHuman/backend/core/llm_service.py` — the two LLM service
  variants (conversation history, demo mode);
* `backend/api/routes/chat.py` — the chat HTTP route handlers.

Python dictionaries are embedded as association lists preserving insertion
order (`Dict` below); Python floats as rationals.  The single square root
that occurs in the code (`np.linalg.norm` in `_calculate_smile_intensity`)
is embedded by passing an explicit square-root oracle `sqrtQ : ℚ → ℚ`;
theorems that depend on the numeric value of the norm carry the hypothesis
that the oracle returns the true nonnegative square root at the argument
in question, while the others need at most its nonnegativity.
-/

set_option maxRecDepth 4000
set_option maxHeartbeats 1000000

namespace ChatAion

/-- A Python `dict` with `String` keys: an association list in insertion
order, keys unique (the operations below preserve uniqueness). -/
abbrev Dict (α : Type) := List (String × α)

/-- `d.get(k)` / `d[k]` as an `Option`. -/
def dictLookup {α : Type} : Dict α → String → Option α
  | [], _ => none
  | (k', v) :: t, k => if k' = k then some v else dictLookup t k

/-- `k in d`. -/
def dictContains {α : Type} (d : Dict α) (k : String) : Bool :=
  (dictLookup d k).isSome

/-- `d[k] = v`: update in place when the key is present (keeping its
position), append at the end otherwise — Python dict semantics. -/
def dictSet {α : Type} : Dict α → String → α → Dict α
  | [], k, v => [(k, v)]
  | (k', v') :: t, k, v =>
      if k' = k then (k', v) :: t else (k', v') :: dictSet t k v

/-- The key list of a dict, in insertion order. -/
def dictKeys {α : Type} (d : Dict α) : List String := d.map Prod.fst

/-- A MediaPipe landmark: the `(lm.x, lm.y, lm.z)` triple collected into
`points` by `_calculate_blendshapes_from_landmarks`. -/
structure Vec3 where
  x : ℚ
  y : ℚ
  z : ℚ
deriving DecidableEq

instance : Inhabited Vec3 := ⟨⟨0, 0, 0⟩⟩

/-- `np.max` over a 1-d array (the guarded uses below are on nonempty
selections, so the `[]` default is never reached there). -/
def listMax : List ℚ → ℚ
  | [] => 0
  | x :: xs => xs.foldl max x

/-- `np.min` over a 1-d array. -/
def listMin : List ℚ → ℚ
  | [] => 0
  | x :: xs => xs.foldl min x

/-- `max(indices)` for a Python list of ints. -/
def natListMax : List Nat → Nat
  | [] => 0
  | x :: xs => xs.foldl max x

/-- `points[indices][:, 1]`: the y-coordinates of the selected landmarks. -/
def selectY (points : List Vec3) (idxs : List Nat) : List ℚ :=
  idxs.map (fun i => (points.getD i default).y)

/-- `left - right` on landmark points. -/
def vsub (p q : Vec3) : Vec3 := ⟨p.x - q.x, p.y - q.y, p.z - q.z⟩

/-- The squared Euclidean norm of a point; `np.linalg.norm v` is its
nonnegative square root. -/
def sqNorm (p : Vec3) : ℚ := p.x ^ 2 + p.y ^ 2 + p.z ^ 2

namespace AnimationService

/-- `AnimationService.ARKIT_BLENDSHAPES` (animation_service.py lines 23–35),
verbatim. -/
def ARKIT_BLENDSHAPES : List String := [
  "browDown_L", "browDown_R", "browInnerUp", "browOuterUp_L", "browOuterUp_R",
  "cheekPuff", "cheekSquint_L", "cheekSquint_R", "eyeBlink_L", "eyeBlink_R",
  "eyeLookDown_L", "eyeLookDown_R", "eyeLookIn_L", "eyeLookIn_R", "eyeLookOut_L",
  "eyeLookOut_R", "eyeLookUp_L", "eyeLookUp_R", "eyeSquint_L", "eyeSquint_R",
  "eyeWide_L", "eyeWide_R", "jawForward", "jawLeft", "jawOpen", "jawRight",
  "mouthClose", "mouthDimple_L", "mouthDimple_R", "mouthFrown_L", "mouthFrown_R",
  "mouthFunnel", "mouthLeft", "mouthLowerDown_L", "mouthLowerDown_R", "mouthPress_L",
  "mouthPress_R", "mouthPucker", "mouthRight", "mouthRollLower", "mouthRollUpper",
  "mouthShrugLower", "mouthShrugUpper", "mouthSmile_L", "mouthSmile_R", "mouthStretch_L",
  "mouthStretch_R", "mouthUpperUp_L", "mouthUpperUp_R", "noseSneer_L", "noseSneer_R",
  "tongueOut", "tongueUp", "tongueDown", "tongueLeft", "tongueRight"]

/-- `Settings.blendshape_count` (config.py line 35). -/
def blendshape_count : Nat := 52

/-- Left-eye landmark indices of `_calculate_eye_height`. -/
def leftEyeIndices : List Nat :=
  [33, 7, 163, 144, 145, 153, 154, 155, 133, 173, 157, 158, 159, 160, 161, 246]

/-- Right-eye landmark indices of `_calculate_eye_height`. -/
def rightEyeIndices : List Nat :=
  [362, 382, 381, 380, 374, 373, 390, 249, 263, 466, 388, 387, 386, 385, 384, 398]

/-- Mouth landmark indices of `_calculate_mouth_height`. -/
def mouthIndices : List Nat :=
  [13, 14, 15, 16, 17, 18, 19, 20, 21, 22, 23, 24, 25, 26, 27, 28, 29, 30, 31, 32]

/-- `AnimationService._calculate_eye_height` (lines 205–219). -/
def calculate_eye_height (points : List Vec3) (eye : String) : ℚ :=
  let eye_indices := if eye = "left" then leftEyeIndices else rightEyeIndices
  if natListMax eye_indices < points.length then
    listMax (selectY points eye_indices) - listMin (selectY points eye_indices)
  else (1 : ℚ) / 10

/-- `AnimationService._calculate_mouth_height` (lines 221–231). -/
def calculate_mouth_height (points : List Vec3) : ℚ :=
  if natListMax mouthIndices < points.length then
    listMax (selectY points mouthIndices) - listMin (selectY points mouthIndices)
  else 0

/-- `AnimationService._calculate_smile_intensity` (lines 233–251); `sqrtQ`
stands for the square root inside `np.linalg.norm(left - right)`. -/
def calculate_smile_intensity (sqrtQ : ℚ → ℚ) (points : List Vec3) : ℚ :=
  if max 61 291 < points.length then
    min 1 (sqrtQ (sqNorm (vsub (points.getD 61 default) (points.getD 291 default))) / (3 / 10))
  else 0

/-- `AnimationService._calculate_blendshapes_from_landmarks` (lines
170–203): the five heuristic entries inserted in program order, then every
remaining ARKit blendshape zero-filled. -/
def calculate_blendshapes_from_landmarks (sqrtQ : ℚ → ℚ) (points : List Vec3) : Dict ℚ :=
  let b1 := dictSet [] "eyeBlink_L" (max 0 (1 - calculate_eye_height points "left" / (1 / 10)))
  let b2 := dictSet b1 "eyeBlink_R" (max 0 (1 - calculate_eye_height points "right" / (1 / 10)))
  let b3 := dictSet b2 "jawOpen" (min 1 (calculate_mouth_height points / (15 / 100)))
  let s := calculate_smile_intensity sqrtQ points
  let b4 := dictSet b3 "mouthSmile_L" s
  let b5 := dictSet b4 "mouthSmile_R" s
  ARKIT_BLENDSHAPES.foldl
    (fun b name => if dictContains b name then b else dictSet b name 0) b5

/-- The `emotion_modifiers` table of `_apply_emotion_overlay`
(lines 260–293), verbatim. -/
def emotion_modifiers : Dict (Dict ℚ) := [
  ("happy", [("mouthSmile_L", 8/10), ("mouthSmile_R", 8/10),
             ("cheekSquint_L", 6/10), ("cheekSquint_R", 6/10),
             ("eyeWide_L", 3/10), ("eyeWide_R", 3/10)]),
  ("sad", [("mouthFrown_L", 7/10), ("mouthFrown_R", 7/10),
           ("browDown_L", 6/10), ("browDown_R", 6/10),
           ("eyeSquint_L", 4/10), ("eyeSquint_R", 4/10)]),
  ("excited", [("mouthSmile_L", 9/10), ("mouthSmile_R", 9/10),
               ("eyeWide_L", 8/10), ("eyeWide_R", 8/10),
               ("browInnerUp", 7/10), ("jawOpen", 3/10)]),
  ("angry", [("browDown_L", 8/10), ("browDown_R", 8/10),
             ("mouthFrown_L", 6/10), ("mouthFrown_R", 6/10),
             ("eyeSquint_L", 7/10), ("eyeSquint_R", 7/10)])]

/-- One iteration of the overlay loop: `if blendshape in blendshapes:
blendshapes[blendshape] = max(blendshapes[blendshape], value)`. -/
def overlayStep (b : Dict ℚ) (kv : String × ℚ) : Dict ℚ :=
  match dictLookup b kv.1 with
  | some cur => dictSet b kv.1 (max cur kv.2)
  | none => b

/-- `AnimationService._apply_emotion_overlay` (lines 253–300). -/
def apply_emotion_overlay (blendshapes : Dict ℚ) (emotion : String) : Dict ℚ :=
  match dictLookup emotion_modifiers emotion with
  | some mods => mods.foldl overlayStep blendshapes
  | none => blendshapes

/-- `AnimationService._get_default_blendshapes` (lines 302–318). -/
def get_default_blendshapes (emotion : String) : Dict ℚ :=
  let b : Dict ℚ := ARKIT_BLENDSHAPES.map (fun name => (name, 0))
  if emotion = "happy" then
    dictSet (dictSet b "mouthSmile_L" (1/2)) "mouthSmile_R" (1/2)
  else if emotion = "sad" then
    dictSet (dictSet b "mouthFrown_L" (1/2)) "mouthFrown_R" (1/2)
  else if emotion = "excited" then
    dictSet (dictSet b "eyeWide_L" (3/10)) "eyeWide_R" (3/10)
  else b

/-- `AnimationService.process_facial_animation` (lines 136–168).  The two
pieces of class state it reads are the booleans `initialized`
(`cls._initialized`) and `faceMesh` (`cls._mediapipe_face_mesh is not
None`); the external MediaPipe call (together with `cv2.cvtColor`) is the
oracle `mpResult`: `.error ()` when the `try` body raises, otherwise the
`results.multi_face_landmarks` list (`None` and `[]` both falsy, both
`.ok []`). -/
def process_facial_animation (sqrtQ : ℚ → ℚ) (initialized faceMesh : Bool)
    (mpResult : Except Unit (List (List Vec3))) (emotion : String) : Dict ℚ :=
  if ¬ (initialized ∧ faceMesh) then get_default_blendshapes emotion
  else
    match mpResult with
    | .error _ => get_default_blendshapes emotion
    | .ok [] => get_default_blendshapes emotion
    | .ok (face :: _) =>
        apply_emotion_overlay (calculate_blendshapes_from_landmarks sqrtQ face) emotion

/-- `AnimationService.connect_to_unity` (lines 107–116).  A connection is
an abstract handle (`Nat`); `connectRes` is the outcome of
`websockets.connect`: `some c` on success, `none` when it raises (then the
stored websocket is left as it was and `False` is returned). -/
def connect_to_unity (ws : Option Nat) (connectRes : Option Nat) : Bool × Option Nat :=
  match connectRes with
  | some c => (true, some c)
  | none => (false, ws)

/-- The `try` block of `send_animation_data`: send over the stored
websocket; on failure reset it to `None` and return `False`.  `sendOk c`
is whether `send` on connection `c` succeeds (sending over `None` raises
`AttributeError`, also caught). -/
def trySend (ws : Option Nat) (sendOk : Nat → Bool) : Bool × Option Nat :=
  match ws with
  | some c => if sendOk c then (true, some c) else (false, none)
  | none => (false, none)

/-- `AnimationService.send_animation_data` (lines 118–133): result flag
and the new stored `_unity_websocket`. -/
def send_animation_data (ws : Option Nat) (connectRes : Option Nat)
    (sendOk : Nat → Bool) : Bool × Option Nat :=
  match ws with
  | none =>
      let c := connect_to_unity none connectRes
      if c.1 = false then (false, c.2) else trySend c.2 sendOk
  | some conn => trySend (some conn) sendOk

end AnimationService

/-- Python truthiness of an optional string: `not s` holds for `None` and
for the empty string. -/
def optStrFalsy : Option String → Bool
  | none => true
  | some s => s = ""

/-- `pat.toList` is a prefix of `s` (character lists). -/
def listPrefixB : List Char → List Char → Bool
  | [], _ => true
  | _ :: _, [] => false
  | p :: ps, c :: cs => p = c && listPrefixB ps cs

/-- `pat` occurs as a contiguous run in `s` (character lists). -/
def listSubB (pat : List Char) : List Char → Bool
  | [] => listPrefixB pat []
  | c :: cs => listPrefixB pat (c :: cs) || listSubB pat cs

/-- Python `pat in s` on strings. -/
def strIn (pat s : String) : Bool := listSubB pat.toList s.toList

/-- A `{"role": ..., "content": ...}` message of the VirtualHuman variant's
conversation history. -/
structure RoleMsg where
  role : String
  content : String
deriving DecidableEq

/-- A `{"role": ..., "content": ..., "timestamp": ...}` message of the
`backend` variant's conversation history. -/
structure TMsg where
  role : String
  content : String
  timestamp : ℚ
deriving DecidableEq

instance : Inhabited TMsg := ⟨⟨"", "", 0⟩⟩

namespace BackendLLM

/-- `LLMService.initialize` of `backend/core/llm_service.py` (lines
15–22): with a falsy `settings.openai_api_key` it raises
`ValueError("OpenAI API key not configured")`; otherwise it stores the
client. -/
def initLLM (apiKey : Option String) : Except String (Option String) :=
  if optStrFalsy apiKey then Except.error "OpenAI API key not configured"
  else Except.ok apiKey

/-- `LLMService._update_conversation_history` of
`backend/core/llm_service.py` (lines 125–152), acting on the
`_conversation_history` dict keyed by session id; `t1`, `t2` are the two
event-loop timestamps. -/
def update_conversation_history (store : Dict (List TMsg)) (session_id : String)
    (user_input assistant_response : String) (t1 t2 : ℚ) : Dict (List TMsg) :=
  let store1 := if dictContains store session_id then store
                else dictSet store session_id []
  let h := (dictLookup store1 session_id).getD []
  let h2 := h ++ [⟨"user", user_input, t1⟩]
  let h3 := h2 ++ [⟨"assistant", assistant_response, t2⟩]
  let h4 := if 20 < h3.length then h3.drop (h3.length - 20) else h3
  dictSet store1 session_id h4

end BackendLLM

namespace VHLLM

/-- The class state of the VirtualHuman variant's `LLMService`. -/
structure State where
  client : Option String
  is_healthy : Bool
  demo_mode : Bool
  history : List RoleMsg
deriving DecidableEq

/-- `LLMService.initialize` of `VirtualHuman/backend/core/llm_service.py`
(lines 22–42): with the API key falsy or equal to the placeholder it turns
demo mode on instead of raising; otherwise it stores the client.  (The
`except` branch around the client constructor is unreachable in this
model, since constructing the client is the only statement that could
raise.) -/
def initLLM (apiKey : Option String) (st : State) : State :=
  if optStrFalsy apiKey || apiKey = some "your_openai_api_key_here" then
    { st with client := none, is_healthy := true, demo_mode := true }
  else
    { st with client := apiKey, is_healthy := true, demo_mode := false }

/-- `LLMService._update_conversation_history` of the VirtualHuman variant
(lines 141–149): append the user and assistant messages, keep the last 20. -/
def update_conversation_history (history : List RoleMsg)
    (user_input response : String) : List RoleMsg :=
  let h2 := history ++ [⟨"user", user_input⟩, ⟨"assistant", response⟩]
  if 20 < h2.length then h2.drop (h2.length - 20) else h2

/-- `LLMService._generate_demo_response` (lines 183–199), verbatim. -/
def generate_demo_response (user_input : String) : String :=
  let l := user_input.toLower
  if strIn "hello" l || strIn "hi" l then
    "Hello! I\x27m your virtual tutor. I\x27m currently running in demo mode. How can I help you learn today?"
  else if strIn "math" l || strIn "calculate" l then
    "I\x27d be happy to help you with math! In demo mode, I can explain concepts and provide examples. What specific math topic would you like to explore?"
  else if strIn "science" l then
    "Science is fascinating! I can help explain scientific concepts, theories, and discoveries. What area of science interests you?"
  else if strIn "history" l then
    "History is full of amazing stories and lessons! I can help you explore different historical periods and events. What would you like to learn about?"
  else if strIn "help" l then
    "I\x27m here to help you learn! I can assist with various subjects like math, science, history, language arts, and more. What would you like to study?"
  else
    "That\x27s an interesting question about \x27" ++ user_input ++ "\x27! I\x27m currently running in demo mode, but I\x27d be happy to help you learn about this topic. Could you tell me more about what specifically you\x27d like to know?"

/-- The `animation_triggers` dict of the VirtualHuman variant. -/
structure Triggers where
  gestures : List String
  facial_expressions : List String
  body_movements : List String
deriving DecidableEq

/-- `LLMService._analyze_response_for_animation` of the VirtualHuman
variant (lines 151–181). -/
def analyze_response_for_animation (response : String) : Triggers :=
  let l := response.toLower
  { gestures :=
      (if strIn "hello" l || strIn "hi" l then ["wave"] else []) ++
      (if strIn "yes" l || strIn "correct" l then ["thumbs_up"] else []) ++
      (if strIn "no" l || strIn "incorrect" l then ["shake_head"] else []),
    facial_expressions :=
      (if strIn "happy" l || strIn "great" l then ["smile"] else []) ++
      (if strIn "think" l || strIn "hmm" l then ["thinking"] else []),
    body_movements :=
      if strIn "explain" l || strIn "show" l then ["point"] else [] }

/-- The dict returned by the VirtualHuman `generate_response`; `error` is
the `"error"` key of the fallback branch (`none` when absent). -/
structure GenOut where
  response : String
  animation_triggers : Triggers
  session_id : Option String
  mode : String
  error : Option String
deriving DecidableEq

/-- `LLMService.generate_response` of the VirtualHuman variant (lines
56–114).  `api` is the outcome of the OpenAI completion call: the
response text, or the raised exception's string; it is consulted only on
the production path. -/
def generate_response (st : State) (user_input : String)
    (session_id : Option String) (api : Except String String) : GenOut × State :=
  let fallback := fun (e : String) =>
    let demo := generate_demo_response user_input
    (⟨demo, analyze_response_for_animation demo, session_id, "fallback", some e⟩,
     { st with history := update_conversation_history st.history user_input demo })
  if st.demo_mode then
    let demo := generate_demo_response user_input
    (⟨demo, analyze_response_for_animation demo, session_id, "demo", none⟩,
     { st with history := update_conversation_history st.history user_input demo })
  else
    match st.client with
    | none => fallback "LLM client not initialized"
    | some _ =>
        match api with
        | Except.ok text =>
            (⟨text, analyze_response_for_animation text, session_id, "production", none⟩,
             { st with history := update_conversation_history st.history user_input text })
        | Except.error e => fallback e

end VHLLM

namespace ChatRoutes

/-- `fastapi.HTTPException`, restricted to the two fields the handlers
set. -/
structure HTTPException where
  status_code : Nat
  detail : String
deriving DecidableEq

/-- The `animation` dict of the backend `generate_response` result (built
by `_analyze_response_for_animation` in `backend/core/llm_service.py`,
lines 154–192): keys `emotion`, `gestures`, `facial_expression`,
`speech_rate` — and no `blendshapes` key. -/
structure AnimTrig where
  emotion : String
  gestures : List String
  facial_expression : String
  speech_rate : String
deriving DecidableEq

/-- The dict returned by the backend `generate_response` (lines 84–89). -/
structure LLMResult where
  response : String
  animation : AnimTrig
  session_id : String
  timestamp : ℚ
deriving DecidableEq

/-- `Settings.animation_fps` (config.py line 34). -/
def animation_fps : Nat := 30

/-- The dict built by `AnimationService.create_complete_animation`
(animation_service.py lines 354–371); `typ` is the `"type"` key. -/
structure AnimationData where
  typ : String
  timestamp : ℚ
  blendshapes : Dict ℚ
  emotion : String
  gestures : List String
  fps : Nat
deriving DecidableEq

/-- `AnimationService.create_complete_animation`; `t` is the event-loop
time. -/
def create_complete_animation (blendshapes : Dict ℚ) (gestures : List String)
    (emotion : String) (t : ℚ) : AnimationData :=
  ⟨"animation_update", t, blendshapes, emotion, gestures, animation_fps⟩

/-- `ChatRequest` (chat.py lines 13–20). -/
structure ChatRequest where
  message : String
  session_id : String
  context : Option String
  personality : Option String
  use_voice : Bool
  voice_id : Option String
deriving DecidableEq

/-- `ChatResponse` (chat.py lines 22–28). -/
structure ChatResponse where
  response : String
  session_id : String
  animation : AnimationData
  audio_url : Option String
  timestamp : ℚ
deriving DecidableEq

/-- `send_message` (chat.py lines 37–80).  `llm` is the outcome of
`LLMService.generate_response` (the raised exception's string on failure),
`audio` that of `AudioService.create_audio_response`, `t` the event-loop
time used by `create_complete_animation`.  The handler's
`llm_result["animation"].get("blendshapes", {})` is `{}` because the
animation dict has no `blendshapes` key, and
`AnimationService.send_animation_data` never raises (its body catches all
exceptions), so its call is ignored here. -/
def send_message (request : ChatRequest) (llm : Except String LLMResult)
    (audio : Except String Unit) (t : ℚ) : Except HTTPException ChatResponse :=
  match llm with
  | Except.error e => Except.error ⟨500, e⟩
  | Except.ok r =>
      let animation_data := create_complete_animation [] r.animation.gestures r.animation.emotion t
      if request.use_voice then
        match audio with
        | Except.error e => Except.error ⟨500, e⟩
        | Except.ok _ =>
            Except.ok ⟨r.response, request.session_id, animation_data,
              some ("/api/audio/play/" ++ request.session_id), r.timestamp⟩
      else
        Except.ok ⟨r.response, request.session_id, animation_data, none, r.timestamp⟩

/-- `SessionInfo` (chat.py lines 30–35). -/
structure SessionInfo where
  session_id : String
  message_count : Nat
  created_at : ℚ
  last_activity : ℚ
deriving DecidableEq

/-- `get_sessions` (chat.py lines 82–103).  `svc` is the read of the
`LLMService` conversation store (`get_all_session_ids` plus
`get_conversation_history` per id): the loop keeps the sessions with
nonempty history, in store order, recording length, first timestamp and
last timestamp. -/
def get_sessions (svc : Except String (Dict (List TMsg))) :
    Except HTTPException (List SessionInfo) :=
  match svc with
  | Except.error e => Except.error ⟨500, e⟩
  | Except.ok store =>
      Except.ok ((store.filter (fun kv => !kv.2.isEmpty)).map
        (fun kv => ⟨kv.1, kv.2.length, (kv.2.headD default).timestamp,
                    (kv.2.getLastD default).timestamp⟩))

/-- The `{"session_id": ..., "history": ...}` dict returned by the history
route. -/
structure HistoryOut where
  session_id : String
  history : List TMsg
deriving DecidableEq

/-- `get_conversation_history` (chat.py lines 105–114); `svc` is the
outcome of `LLMService.get_conversation_history(session_id)`. -/
def get_conversation_history (session_id : String)
    (svc : Except String (List TMsg)) : Except HTTPException HistoryOut :=
  match svc with
  | Except.error e => Except.error ⟨500, e⟩
  | Except.ok h => Except.ok ⟨session_id, h⟩

/-- The `{"message": ...}` dict returned by `clear_session`. -/
structure MessageOut where
  message : String
deriving DecidableEq

/-- `clear_session` (chat.py lines 116–125); `svc` is the outcome of
`LLMService.clear_conversation_history(session_id)`. -/
def clear_session (session_id : String) (svc : Except String Unit) :
    Except HTTPException MessageOut :=
  match svc with
  | Except.error e => Except.error ⟨500, e⟩
  | Except.ok _ => Except.ok ⟨"Session " ++ session_id ++ " cleared successfully"⟩

end ChatRoutes

/-! ## Association-list lemmas -/

theorem dictLookup_dictSet {α : Type} (d : Dict α) (k : String) (v : α) (k' : String) :
    dictLookup (dictSet d k v) k' = if k = k' then some v else dictLookup d k' := by
  induction d with
  | nil => simp [dictSet, dictLookup]
  | cons p t ih =>
      obtain ⟨a, b⟩ := p
      by_cases hak : a = k
      · subst hak
        by_cases hak' : a = k' <;> simp [dictSet, dictLookup, hak']
      · by_cases hak' : a = k'
        · subst hak'
          have hka : ¬ k = a := fun h => hak h.symm
          simp [dictSet, dictLookup, hak, hka]
        · simp [dictSet, dictLookup, hak, hak', ih]

theorem dictContains_dictSet {α : Type} (d : Dict α) (k : String) (v : α) (k' : String) :
    dictContains (dictSet d k v) k' = (decide (k = k') || dictContains d k') := by
  simp only [dictContains, dictLookup_dictSet]
  by_cases h : k = k' <;> simp [h]

theorem dictContains_iff_mem_keys {α : Type} (d : Dict α) (k : String) :
    dictContains d k = true ↔ k ∈ dictKeys d := by
  induction d with
  | nil => simp [dictContains, dictLookup, dictKeys]
  | cons p t ih =>
      obtain ⟨a, b⟩ := p
      by_cases h : a = k
      · subst h
        simp [dictContains, dictLookup, dictKeys]
      · have hka : ¬ k = a := fun hh => h hh.symm
        have hcont : dictContains ((a, b) :: t) k = dictContains t k := by
          simp [dictContains, dictLookup, h]
        rw [hcont, show dictKeys ((a, b) :: t) = a :: dictKeys t from rfl,
          List.mem_cons, ih]
        exact ⟨Or.inr, fun hh => hh.resolve_left hka⟩

theorem dictKeys_dictSet_of_contains {α : Type} (d : Dict α) (k : String) (v : α)
    (h : dictContains d k = true) : dictKeys (dictSet d k v) = dictKeys d := by
  induction d with
  | nil => simp [dictContains, dictLookup] at h
  | cons p t ih =>
      obtain ⟨a, b⟩ := p
      by_cases hak : a = k
      · rw [show dictSet ((a, b) :: t) k v = (a, v) :: t from by simp [dictSet, hak]]
        rfl
      · have h' : dictContains t k = true := by
          simpa [dictContains, dictLookup, hak] using h
        rw [show dictSet ((a, b) :: t) k v = (a, b) :: dictSet t k v from by
          simp [dictSet, hak]]
        show a :: dictKeys (dictSet t k v) = a :: dictKeys t
        rw [ih h']

theorem mem_dictSet {α : Type} (d : Dict α) (k : String) (v : α) :
    ∀ kv ∈ dictSet d k v, kv.2 = v ∨ kv ∈ d := by
  induction d with
  | nil =>
      intro kv hkv
      simp only [dictSet, List.mem_singleton] at hkv
      exact Or.inl (by rw [hkv])
  | cons p t ih =>
      obtain ⟨a, b⟩ := p
      intro kv hkv
      by_cases hak : a = k
      · rw [show dictSet ((a, b) :: t) k v = (a, v) :: t from by simp [dictSet, hak],
          List.mem_cons] at hkv
        rcases hkv with h1 | h1
        · exact Or.inl (by rw [h1])
        · exact Or.inr (List.mem_cons_of_mem _ h1)
      · rw [show dictSet ((a, b) :: t) k v = (a, b) :: dictSet t k v from by
          simp [dictSet, hak], List.mem_cons] at hkv
        rcases hkv with h1 | h1
        · exact Or.inr (by rw [h1]; exact List.mem_cons_self _ _)
        · rcases ih kv h1 with h2 | h2
          · exact Or.inl h2
          · exact Or.inr (List.mem_cons_of_mem _ h2)

theorem dictLookup_mem {α : Type} (d : Dict α) (k : String) (v : α)
    (h : dictLookup d k = some v) : (k, v) ∈ d := by
  induction d with
  | nil => simp [dictLookup] at h
  | cons p t ih =>
      obtain ⟨a, b⟩ := p
      by_cases hak : a = k
      · subst hak
        simp [dictLookup] at h
        subst h
        exact List.mem_cons_self _ _
      · simp only [dictLookup, if_neg hak] at h
        exact List.mem_cons_of_mem _ (ih h)

theorem dictLookup_eq_none_of_not_mem {α : Type} (d : Dict α) (k : String)
    (h : k ∉ dictKeys d) : dictLookup d k = none := by
  induction d with
  | nil => simp [dictLookup]
  | cons p t ih =>
      obtain ⟨a, b⟩ := p
      rw [show dictKeys ((a, b) :: t) = a :: dictKeys t from rfl, List.mem_cons] at h
      push_neg at h
      have hne : ¬ a = k := fun hh => h.1 hh.symm
      rw [show dictLookup ((a, b) :: t) k = dictLookup t k from by
        simp only [dictLookup, if_neg hne]]
      exact ih h.2

/-! ## Bounds on list folds (`np.max` / `np.min`) -/

theorem foldl_min_le_init (xs : List ℚ) : ∀ a : ℚ, xs.foldl min a ≤ a := by
  induction xs with
  | nil => intro a; simp
  | cons x t ih =>
      intro a
      calc (x :: t).foldl min a = t.foldl min (min a x) := by simp
        _ ≤ min a x := ih _
        _ ≤ a := min_le_left _ _

theorem init_le_foldl_max (xs : List ℚ) : ∀ a : ℚ, a ≤ xs.foldl max a := by
  induction xs with
  | nil => intro a; simp
  | cons x t ih =>
      intro a
      calc a ≤ max a x := le_max_left _ _
        _ ≤ t.foldl max (max a x) := ih _
        _ = (x :: t).foldl max a := by simp

theorem listMin_le_listMax_of_cons (x : ℚ) (xs : List ℚ) :
    listMin (x :: xs) ≤ listMax (x :: xs) := by
  calc listMin (x :: xs) = xs.foldl min x := rfl
    _ ≤ x := foldl_min_le_init xs x
    _ ≤ xs.foldl max x := init_le_foldl_max xs x
    _ = listMax (x :: xs) := rfl

/-! ## The zero-fill loop of `calculate_blendshapes_from_landmarks` -/

theorem zeroFill_mem (names : List String) :
    ∀ (b : Dict ℚ) (kv : String × ℚ),
      kv ∈ names.foldl
        (fun b name => if dictContains b name then b else dictSet b name 0) b →
      kv.2 = 0 ∨ kv ∈ b := by
  induction names with
  | nil => exact fun b kv h => Or.inr h
  | cons n ns ih =>
      intro b kv h
      rcases ih _ kv h with h1 | h1
      · exact Or.inl h1
      · dsimp only at h1
        by_cases hc : dictContains b n = true
        · rw [if_pos hc] at h1
          exact Or.inr h1
        · rw [if_neg hc] at h1
          rcases mem_dictSet b n 0 kv h1 with h2 | h2
          · exact Or.inl h2
          · exact Or.inr h2

theorem zeroFill_contains (names : List String) :
    ∀ (b : Dict ℚ) (k : String),
      dictContains
        (names.foldl
          (fun b name => if dictContains b name then b else dictSet b name 0) b) k = true ↔
      k ∈ names ∨ dictContains b k = true := by
  induction names with
  | nil => simp
  | cons n ns ih =>
      intro b k
      rw [List.foldl_cons, ih]
      by_cases hc : dictContains b n = true
      · rw [if_pos hc]
        constructor
        · rintro (h | h)
          · exact Or.inl (List.mem_cons_of_mem _ h)
          · exact Or.inr h
        · rintro (h | h)
          · rcases List.mem_cons.mp h with h' | h'
            · exact Or.inr (h' ▸ hc)
            · exact Or.inl h'
          · exact Or.inr h
      · rw [if_neg hc, dictContains_dictSet]
        constructor
        · rintro (h | h)
          · exact Or.inl (List.mem_cons_of_mem _ h)
          · rcases Bool.or_eq_true_iff.mp h with h' | h'
            · exact Or.inl (List.mem_cons.mpr (Or.inl (of_decide_eq_true h').symm))
            · exact Or.inr h'
        · rintro (h | h)
          · rcases List.mem_cons.mp h with h' | h'
            · exact Or.inr (Bool.or_eq_true_iff.mpr (Or.inl (decide_eq_true h'.symm)))
            · exact Or.inl h'
          · exact Or.inr (Bool.or_eq_true_iff.mpr (Or.inr h))

/-! ## The emotion-overlay loop -/

theorem overlayStep_keys (b : Dict ℚ) (kv : String × ℚ) :
    dictKeys (AnimationService.overlayStep b kv) = dictKeys b := by
  unfold AnimationService.overlayStep
  cases h : dictLookup b kv.1 with
  | none => rfl
  | some cur =>
      exact dictKeys_dictSet_of_contains b kv.1 (max cur kv.2)
        (by simp [dictContains, h])

theorem overlay_foldl_keys (mods : List (String × ℚ)) :
    ∀ b : Dict ℚ, dictKeys (mods.foldl AnimationService.overlayStep b) = dictKeys b := by
  induction mods with
  | nil => exact fun _ => rfl
  | cons m ms ih =>
      intro b
      rw [List.foldl_cons, ih, overlayStep_keys]

theorem overlay_foldl_lookup (mods : Dict ℚ) :
    ∀ (b : Dict ℚ) (k : String) (cur : ℚ),
      (dictKeys mods).Nodup → dictLookup b k = some cur →
      dictLookup (mods.foldl AnimationService.overlayStep b) k =
        some (match dictLookup mods k with
              | some mv => max cur mv
              | none => cur) := by
  induction mods with
  | nil => intro b k cur _ h; simpa [dictLookup] using h
  | cons m ms ih =>
      obtain ⟨k0, v0⟩ := m
      intro b k cur hnd hcur
      have hnd' : (dictKeys ms).Nodup := (List.nodup_cons.mp hnd).2
      have hk0 : k0 ∉ dictKeys ms := (List.nodup_cons.mp hnd).1
      rw [List.foldl_cons]
      by_cases hk : k0 = k
      · subst hk
        have hstep : AnimationService.overlayStep b (k0, v0) = dictSet b k0 (max cur v0) := by
          simp [AnimationService.overlayStep, hcur]
        have hlook : dictLookup (dictSet b k0 (max cur v0)) k0 = some (max cur v0) := by
          rw [dictLookup_dictSet, if_pos rfl]
        rw [hstep, ih _ _ _ hnd' hlook, dictLookup_eq_none_of_not_mem ms k0 hk0]
        simp [dictLookup]
      · have hlook : dictLookup (AnimationService.overlayStep b (k0, v0)) k = some cur := by
          unfold AnimationService.overlayStep
          cases h0 : dictLookup b (k0, v0).1 with
          | none => exact hcur
          | some c0 => rw [dictLookup_dictSet, if_neg hk]; exact hcur
        rw [ih _ _ _ hnd' hlook]
        simp [dictLookup, hk]

theorem overlayStep_bounds (b : Dict ℚ) (kv : String × ℚ)
    (hb : ∀ p ∈ b, 0 ≤ p.2 ∧ p.2 ≤ 1) (hv : 0 ≤ kv.2 ∧ kv.2 ≤ 1) :
    ∀ p ∈ AnimationService.overlayStep b kv, 0 ≤ p.2 ∧ p.2 ≤ 1 := by
  unfold AnimationService.overlayStep
  cases h : dictLookup b kv.1 with
  | none => exact hb
  | some cur =>
      intro p hp
      have hcur : 0 ≤ cur ∧ cur ≤ 1 := hb _ (dictLookup_mem b kv.1 cur h)
      rcases mem_dictSet b kv.1 (max cur kv.2) p hp with h2 | h2
      · rw [h2]
        exact ⟨le_max_of_le_left hcur.1, max_le hcur.2 hv.2⟩
      · exact hb _ h2

theorem overlay_foldl_bounds (mods : Dict ℚ) :
    ∀ b : Dict ℚ, (∀ p ∈ b, 0 ≤ p.2 ∧ p.2 ≤ 1) →
      (∀ p ∈ mods, 0 ≤ p.2 ∧ p.2 ≤ 1) →
      ∀ p ∈ mods.foldl AnimationService.overlayStep b, 0 ≤ p.2 ∧ p.2 ≤ 1 := by
  induction mods with
  | nil => exact fun _ hb _ => hb
  | cons m ms ih =>
      intro b hb hm
      rw [List.foldl_cons]
      exact ih _ (overlayStep_bounds b m hb (hm m (List.mem_cons_self _ _)))
        (fun p hp => hm p (List.mem_cons_of_mem _ hp))

theorem emotion_modifiers_bounds (emotion : String) (mods : Dict ℚ)
    (h : dictLookup AnimationService.emotion_modifiers emotion = some mods) :
    ∀ p ∈ mods, 0 ≤ p.2 ∧ p.2 ≤ 1 := by
  have hmem : ∀ p ∈ AnimationService.emotion_modifiers, ∀ q ∈ p.2, 0 ≤ q.2 ∧ q.2 ≤ 1 := by
    intro p hp
    simp only [AnimationService.emotion_modifiers, List.mem_cons,
      List.not_mem_nil, or_false] at hp
    rcases hp with rfl | rfl | rfl | rfl <;>
      (intro q hq
       simp only [List.mem_cons, List.not_mem_nil, or_false] at hq
       rcases hq with rfl | rfl | rfl | rfl | rfl | rfl <;> norm_num)
  exact hmem (emotion, mods) (dictLookup_mem _ _ _ h)

theorem emotion_modifiers_nodup (emotion : String) (mods : Dict ℚ)
    (h : dictLookup AnimationService.emotion_modifiers emotion = some mods) :
    (dictKeys mods).Nodup := by
  have hmem : ∀ p ∈ AnimationService.emotion_modifiers, (dictKeys p.2).Nodup := by
    intro p hp
    simp only [AnimationService.emotion_modifiers, List.mem_cons,
      List.not_mem_nil, or_false] at hp
    rcases hp with rfl | rfl | rfl | rfl <;> decide
  exact hmem (emotion, mods) (dictLookup_mem _ _ _ h)

theorem emotion_modifiers_lookup_none (emotion : String)
    (h : emotion ∉ ["happy", "sad", "excited", "angry"]) :
    dictLookup AnimationService.emotion_modifiers emotion = none := by
  apply dictLookup_eq_none_of_not_mem
  simpa [AnimationService.emotion_modifiers, dictKeys] using h

/-! ## Bounds on the geometric heuristics -/

theorem listMin_le_listMax (l : List ℚ) (hne : l ≠ []) : listMin l ≤ listMax l := by
  cases l with
  | nil => exact absurd rfl hne
  | cons x xs => exact listMin_le_listMax_of_cons x xs

theorem sqNorm_nonneg (p : Vec3) : 0 ≤ sqNorm p := by
  unfold sqNorm
  positivity

theorem selectY_ne_nil (points : List Vec3) (idxs : List Nat) (h : idxs ≠ []) :
    selectY points idxs ≠ [] := by
  cases idxs with
  | nil => exact absurd rfl h
  | cons i t => simp [selectY]

theorem calculate_eye_height_nonneg (points : List Vec3) (eye : String) :
    0 ≤ AnimationService.calculate_eye_height points eye := by
  unfold AnimationService.calculate_eye_height
  split
  · dsimp only
    split
    · rw [sub_nonneg]
      exact listMin_le_listMax _ (selectY_ne_nil _ _ (by decide))
    · norm_num
  · dsimp only
    split
    · rw [sub_nonneg]
      exact listMin_le_listMax _ (selectY_ne_nil _ _ (by decide))
    · norm_num

theorem calculate_mouth_height_nonneg (points : List Vec3) :
    0 ≤ AnimationService.calculate_mouth_height points := by
  unfold AnimationService.calculate_mouth_height
  split
  · rw [sub_nonneg]
    exact listMin_le_listMax _ (by simp [selectY, AnimationService.mouthIndices])
  · norm_num

theorem calculate_smile_intensity_bounds (sqrtQ : ℚ → ℚ)
    (hs : ∀ s : ℚ, 0 ≤ s → 0 ≤ sqrtQ s) (points : List Vec3) :
    0 ≤ AnimationService.calculate_smile_intensity sqrtQ points ∧
      AnimationService.calculate_smile_intensity sqrtQ points ≤ 1 := by
  unfold AnimationService.calculate_smile_intensity
  split
  · constructor
    · exact le_min (by norm_num) (div_nonneg (hs _ (sqNorm_nonneg _)) (by norm_num))
    · exact min_le_left _ _
  · norm_num

theorem blink_weight_bounds (h : ℚ) (hh : 0 ≤ h) :
    0 ≤ max 0 (1 - h / (1 / 10)) ∧ max 0 (1 - h / (1 / 10)) ≤ 1 :=
  ⟨le_max_left _ _,
   max_le (by norm_num) (by
     have : 0 ≤ h / (1 / 10) := div_nonneg hh (by norm_num)
     linarith)⟩

theorem jaw_weight_bounds (m : ℚ) (hm : 0 ≤ m) :
    0 ≤ min 1 (m / (15 / 100)) ∧ min 1 (m / (15 / 100)) ≤ 1 :=
  ⟨le_min (by norm_num) (div_nonneg hm (by norm_num)), min_le_left _ _⟩

theorem calculate_blendshapes_bounds (sqrtQ : ℚ → ℚ)
    (hs : ∀ s : ℚ, 0 ≤ s → 0 ≤ sqrtQ s) (points : List Vec3) :
    ∀ kv ∈ AnimationService.calculate_blendshapes_from_landmarks sqrtQ points,
      0 ≤ kv.2 ∧ kv.2 ≤ 1 := by
  intro kv hkv
  unfold AnimationService.calculate_blendshapes_from_landmarks at hkv
  rcases zeroFill_mem _ _ _ hkv with h0 | h5
  · rw [h0]; norm_num
  · have hsmile := calculate_smile_intensity_bounds sqrtQ hs points
    rcases mem_dictSet _ _ _ kv h5 with hR | h4
    · rw [hR]; exact hsmile
    · rcases mem_dictSet _ _ _ kv h4 with hL | h3
      · rw [hL]; exact hsmile
      · rcases mem_dictSet _ _ _ kv h3 with hJ | h2
        · rw [hJ]; exact jaw_weight_bounds _ (calculate_mouth_height_nonneg points)
        · rcases mem_dictSet _ _ _ kv h2 with hBR | h1
          · rw [hBR]; exact blink_weight_bounds _ (calculate_eye_height_nonneg points "right")
          · rcases mem_dictSet _ _ _ kv h1 with hBL | h0
            · rw [hBL]; exact blink_weight_bounds _ (calculate_eye_height_nonneg points "left")
            · simp at h0

theorem get_default_blendshapes_bounds (emotion : String) :
    ∀ kv ∈ AnimationService.get_default_blendshapes emotion, 0 ≤ kv.2 ∧ kv.2 ≤ 1 := by
  intro kv hkv
  unfold AnimationService.get_default_blendshapes at hkv
  have hbase : ∀ p ∈ (AnimationService.ARKIT_BLENDSHAPES.map fun name => (name, (0 : ℚ))),
      0 ≤ p.2 ∧ p.2 ≤ 1 := by
    intro p hp
    rcases List.mem_map.mp hp with ⟨name, _, hp2⟩
    rw [← hp2]
    norm_num
  split_ifs at hkv <;>
    first
    | exact hbase kv hkv
    | (rcases mem_dictSet _ _ _ kv hkv with h2 | h3
       · rw [h2]; norm_num
       · rcases mem_dictSet _ _ _ kv h3 with h4 | h5
         · rw [h4]; norm_num
         · exact hbase kv h5)

theorem apply_emotion_overlay_bounds (b : Dict ℚ) (emotion : String)
    (hb : ∀ kv ∈ b, 0 ≤ kv.2 ∧ kv.2 ≤ 1) :
    ∀ kv ∈ AnimationService.apply_emotion_overlay b emotion, 0 ≤ kv.2 ∧ kv.2 ≤ 1 := by
  unfold AnimationService.apply_emotion_overlay
  cases h : dictLookup AnimationService.emotion_modifiers emotion with
  | none => exact hb
  | some mods => exact overlay_foldl_bounds mods b hb (emotion_modifiers_bounds emotion mods h)

/-! ## Claim theorems -/

/-- C1: every blendshape weight produced by the facial animation pipeline
lies in `[0, 1]`: every value of the dictionary returned by
`_calculate_blendshapes_from_landmarks` (for any landmark array and any
nonnegative square-root oracle), of the one returned by
`_apply_emotion_overlay` on an input dictionary with values in `[0, 1]`
(for any emotion string), and of the one returned by
`_get_default_blendshapes` (for any emotion string), is at least `0` and
at most `1`. -/
theorem c1_blendshape_weights_unit_interval :
    (∀ (sqrtQ : ℚ → ℚ), (∀ s : ℚ, 0 ≤ s → 0 ≤ sqrtQ s) →
      ∀ (points : List Vec3),
        ∀ kv ∈ AnimationService.calculate_blendshapes_from_landmarks sqrtQ points,
          0 ≤ kv.2 ∧ kv.2 ≤ 1) ∧
    (∀ (b : Dict ℚ) (emotion : String),
      (∀ kv ∈ b, 0 ≤ kv.2 ∧ kv.2 ≤ 1) →
      ∀ kv ∈ AnimationService.apply_emotion_overlay b emotion, 0 ≤ kv.2 ∧ kv.2 ≤ 1) ∧
    (∀ (emotion : String),
      ∀ kv ∈ AnimationService.get_default_blendshapes emotion, 0 ≤ kv.2 ∧ kv.2 ≤ 1) :=
  ⟨calculate_blendshapes_bounds, apply_emotion_overlay_bounds,
   get_default_blendshapes_bounds⟩

/-- Witness for C1 at concrete inputs: the zero square-root oracle with an
empty landmark array, the singleton dictionary `{"mouthSmile_L": 0}` with
emotion `"happy"`, and the defaults for `"happy"`. -/
theorem c1_blendshape_weights_unit_interval_witness :
    ((0 : ℚ) ≤ 0 ∧ (0 : ℚ) ≤ 1) ∧ ((0 : ℚ) ≤ 8 / 10 ∧ (8 / 10 : ℚ) ≤ 1) ∧
      ((0 : ℚ) ≤ 1 / 2 ∧ (1 / 2 : ℚ) ≤ 1) :=
  ⟨c1_blendshape_weights_unit_interval.1 (fun _ => 0) (fun _ _ => le_refl 0) []
     ("eyeBlink_L", 0)
     (by norm_num +decide [AnimationService.calculate_blendshapes_from_landmarks,
        AnimationService.calculate_eye_height, AnimationService.calculate_mouth_height,
        AnimationService.calculate_smile_intensity, AnimationService.leftEyeIndices,
        AnimationService.rightEyeIndices, AnimationService.mouthIndices, natListMax,
        AnimationService.ARKIT_BLENDSHAPES, dictSet, dictLookup, dictContains]),
   c1_blendshape_weights_unit_interval.2.1 [("mouthSmile_L", 0)] "happy"
     (by rintro kv hkv
         rw [List.mem_singleton] at hkv
         rw [hkv]
         norm_num)
     ("mouthSmile_L", 8 / 10)
     (by norm_num +decide [AnimationService.apply_emotion_overlay,
        AnimationService.emotion_modifiers, AnimationService.overlayStep,
        dictSet, dictLookup]),
   c1_blendshape_weights_unit_interval.2.2 "happy" ("mouthSmile_L", 1 / 2)
     (by norm_num +decide [AnimationService.get_default_blendshapes,
        AnimationService.ARKIT_BLENDSHAPES, dictSet, dictLookup])⟩

/-- C2: `process_facial_animation` follows the pipeline order — with the
service initialized, the face mesh present and MediaPipe reporting at
least one face it returns the emotion overlay applied to the blendshapes
of the first face's landmarks; with the service uninitialized, the face
mesh missing, the MediaPipe call raising, or no face detected, it returns
the default blendshapes for the emotion. -/
theorem c2_process_facial_animation_pipeline_order :
    (∀ (sqrtQ : ℚ → ℚ) (face : List Vec3) (rest : List (List Vec3)) (emotion : String),
      AnimationService.process_facial_animation sqrtQ true true
          (Except.ok (face :: rest)) emotion =
        AnimationService.apply_emotion_overlay
          (AnimationService.calculate_blendshapes_from_landmarks sqrtQ face) emotion) ∧
    (∀ (sqrtQ : ℚ → ℚ) (faceMesh : Bool) (mpResult : Except Unit (List (List Vec3)))
        (emotion : String),
      AnimationService.process_facial_animation sqrtQ false faceMesh mpResult emotion =
        AnimationService.get_default_blendshapes emotion) ∧
    (∀ (sqrtQ : ℚ → ℚ) (initialized : Bool) (mpResult : Except Unit (List (List Vec3)))
        (emotion : String),
      AnimationService.process_facial_animation sqrtQ initialized false mpResult emotion =
        AnimationService.get_default_blendshapes emotion) ∧
    (∀ (sqrtQ : ℚ → ℚ) (initialized faceMesh : Bool) (emotion : String),
      AnimationService.process_facial_animation sqrtQ initialized faceMesh
          (Except.error ()) emotion =
        AnimationService.get_default_blendshapes emotion) ∧
    (∀ (sqrtQ : ℚ → ℚ) (initialized faceMesh : Bool) (emotion : String),
      AnimationService.process_facial_animation sqrtQ initialized faceMesh
          (Except.ok []) emotion =
        AnimationService.get_default_blendshapes emotion) := by
  refine ⟨fun _ _ _ _ => rfl, fun _ _ _ _ => rfl, ?_, ?_, ?_⟩
  · intro sqrtQ init mp emotion
    cases init <;> rfl
  · intro sqrtQ init fm emotion
    cases init <;> cases fm <;> rfl
  · intro sqrtQ init fm emotion
    cases init <;> cases fm <;> rfl

/-- C3: the `ARKIT_BLENDSHAPES` table in fact holds 56 distinct names —
not 52 — while the configured `Settings.blendshape_count` is 52; both
carry the comment "Standard ARKit blendshapes".  (The four extra names
are `tongueUp`, `tongueDown`, `tongueLeft`, `tongueRight`.) -/
theorem c3_arkit_blendshapes_count :
    AnimationService.ARKIT_BLENDSHAPES.Nodup ∧
      AnimationService.ARKIT_BLENDSHAPES.length = 56 ∧
      AnimationService.blendshape_count = 52 ∧
      AnimationService.ARKIT_BLENDSHAPES.length ≠ AnimationService.blendshape_count := by
  refine ⟨by decide, rfl, rfl, by decide⟩

theorem zeroFill_lookup (names : List String) :
    ∀ (b : Dict ℚ) (k : String), dictContains b k = true →
      dictLookup
        (names.foldl
          (fun b name => if dictContains b name then b else dictSet b name 0) b) k =
      dictLookup b k := by
  induction names with
  | nil => exact fun _ _ _ => rfl
  | cons n ns ih =>
      intro b k hk
      rw [List.foldl_cons]
      by_cases hc : dictContains b n = true
      · rw [if_pos hc]
        exact ih b k hk
      · rw [if_neg hc]
        have hnk : ¬ n = k := fun hh => hc (hh ▸ hk)
        rw [ih _ _ (by rw [dictContains_dictSet]; exact Bool.or_eq_true_iff.mpr (Or.inr hk)),
          dictLookup_dictSet, if_neg hnk]

theorem b5_keys (v1 v2 v3 v4 v5 : ℚ) :
    dictKeys (dictSet (dictSet (dictSet (dictSet (dictSet [] "eyeBlink_L" v1)
        "eyeBlink_R" v2) "jawOpen" v3) "mouthSmile_L" v4) "mouthSmile_R" v5) =
      ["eyeBlink_L", "eyeBlink_R", "jawOpen", "mouthSmile_L", "mouthSmile_R"] := by
  simp +decide [dictSet, dictKeys]

theorem b5_lookup (v1 v2 v3 v4 v5 : ℚ) :
    dictLookup (dictSet (dictSet (dictSet (dictSet (dictSet [] "eyeBlink_L" v1)
        "eyeBlink_R" v2) "jawOpen" v3) "mouthSmile_L" v4) "mouthSmile_R" v5)
        "eyeBlink_L" = some v1 ∧
    dictLookup (dictSet (dictSet (dictSet (dictSet (dictSet [] "eyeBlink_L" v1)
        "eyeBlink_R" v2) "jawOpen" v3) "mouthSmile_L" v4) "mouthSmile_R" v5)
        "eyeBlink_R" = some v2 ∧
    dictLookup (dictSet (dictSet (dictSet (dictSet (dictSet [] "eyeBlink_L" v1)
        "eyeBlink_R" v2) "jawOpen" v3) "mouthSmile_L" v4) "mouthSmile_R" v5)
        "jawOpen" = some v3 ∧
    dictLookup (dictSet (dictSet (dictSet (dictSet (dictSet [] "eyeBlink_L" v1)
        "eyeBlink_R" v2) "jawOpen" v3) "mouthSmile_L" v4) "mouthSmile_R" v5)
        "mouthSmile_L" = some v4 ∧
    dictLookup (dictSet (dictSet (dictSet (dictSet (dictSet [] "eyeBlink_L" v1)
        "eyeBlink_R" v2) "jawOpen" v3) "mouthSmile_L" v4) "mouthSmile_R" v5)
        "mouthSmile_R" = some v5 := by
  refine ⟨?_, ?_, ?_, ?_, ?_⟩ <;> simp +decide [dictSet, dictLookup]

theorem calc_contains (sqrtQ : ℚ → ℚ) (points : List Vec3) (k : String) :
    dictContains (AnimationService.calculate_blendshapes_from_landmarks sqrtQ points) k
        = true ↔
      k ∈ AnimationService.ARKIT_BLENDSHAPES := by
  unfold AnimationService.calculate_blendshapes_from_landmarks
  dsimp only
  rw [zeroFill_contains]
  constructor
  · rintro (h | h)
    · exact h
    · rw [dictContains_iff_mem_keys, b5_keys] at h
      simp only [List.mem_cons, List.not_mem_nil, or_false] at h
      rcases h with rfl | rfl | rfl | rfl | rfl <;> decide
  · exact Or.inl

theorem apply_emotion_overlay_keys (b : Dict ℚ) (emotion : String) :
    dictKeys (AnimationService.apply_emotion_overlay b emotion) = dictKeys b := by
  unfold AnimationService.apply_emotion_overlay
  cases h : dictLookup AnimationService.emotion_modifiers emotion with
  | none => rfl
  | some mods => exact overlay_foldl_keys mods b

theorem base_keys :
    dictKeys (AnimationService.ARKIT_BLENDSHAPES.map fun name => (name, (0 : ℚ))) =
      AnimationService.ARKIT_BLENDSHAPES := by
  rw [dictKeys, List.map_map]
  rw [show (Prod.fst ∘ fun name : String => (name, (0 : ℚ))) = id from rfl, List.map_id]

theorem default_pair_keys (k1 k2 : String)
    (h1 : k1 ∈ AnimationService.ARKIT_BLENDSHAPES)
    (h2 : k2 ∈ AnimationService.ARKIT_BLENDSHAPES) (v : ℚ) :
    dictKeys (dictSet (dictSet
        (AnimationService.ARKIT_BLENDSHAPES.map fun name => (name, (0 : ℚ))) k1 v) k2 v) =
      AnimationService.ARKIT_BLENDSHAPES := by
  have hc1 : dictContains
      (AnimationService.ARKIT_BLENDSHAPES.map fun name => (name, (0 : ℚ))) k1 = true := by
    rw [dictContains_iff_mem_keys, base_keys]
    exact h1
  have hc2 : dictContains (dictSet
      (AnimationService.ARKIT_BLENDSHAPES.map fun name => (name, (0 : ℚ))) k1 v) k2
      = true := by
    rw [dictContains_iff_mem_keys, dictKeys_dictSet_of_contains _ _ _ hc1, base_keys]
    exact h2
  rw [dictKeys_dictSet_of_contains _ _ _ hc2, dictKeys_dictSet_of_contains _ _ _ hc1,
    base_keys]

theorem default_keys (emotion : String) :
    dictKeys (AnimationService.get_default_blendshapes emotion) =
      AnimationService.ARKIT_BLENDSHAPES := by
  unfold AnimationService.get_default_blendshapes
  dsimp only
  split_ifs <;>
    first
    | exact default_pair_keys _ _ (by decide) (by decide) _
    | exact base_keys

theorem default_contains (emotion : String) (k : String) :
    dictContains (AnimationService.get_default_blendshapes emotion) k = true ↔
      k ∈ AnimationService.ARKIT_BLENDSHAPES := by
  rw [dictContains_iff_mem_keys, default_keys]

/-- C10: on every path, the dictionary returned by
`process_facial_animation` has exactly the names of `ARKIT_BLENDSHAPES`
as its key set; likewise `_calculate_blendshapes_from_landmarks` (which
zero-fills every unset blendshape) and `_get_default_blendshapes`, while
`_apply_emotion_overlay` never adds or removes keys. -/
theorem c10_result_key_set :
    (∀ (sqrtQ : ℚ → ℚ) (initialized faceMesh : Bool)
        (mpResult : Except Unit (List (List Vec3))) (emotion : String) (k : String),
      dictContains
          (AnimationService.process_facial_animation sqrtQ initialized faceMesh
            mpResult emotion) k = true ↔
        k ∈ AnimationService.ARKIT_BLENDSHAPES) ∧
    (∀ (sqrtQ : ℚ → ℚ) (points : List Vec3) (k : String),
      dictContains
          (AnimationService.calculate_blendshapes_from_landmarks sqrtQ points) k = true ↔
        k ∈ AnimationService.ARKIT_BLENDSHAPES) ∧
    (∀ (b : Dict ℚ) (emotion : String),
      dictKeys (AnimationService.apply_emotion_overlay b emotion) = dictKeys b) ∧
    (∀ (emotion k : String),
      dictContains (AnimationService.get_default_blendshapes emotion) k = true ↔
        k ∈ AnimationService.ARKIT_BLENDSHAPES) := by
  refine ⟨?_, calc_contains, apply_emotion_overlay_keys, default_contains⟩
  intro sqrtQ init fm mp emotion k
  unfold AnimationService.process_facial_animation
  cases init with
  | false => exact default_contains emotion k
  | true =>
      cases fm with
      | false => exact default_contains emotion k
      | true =>
          cases mp with
          | error e => exact default_contains emotion k
          | ok faces =>
              cases faces with
              | nil => exact default_contains emotion k
              | cons f rest =>
                  show dictContains (AnimationService.apply_emotion_overlay _ _) k
                      = true ↔ _
                  rw [dictContains_iff_mem_keys, apply_emotion_overlay_keys,
                    ← dictContains_iff_mem_keys, calc_contains]

/-- C5: the emotion overlay is a fixed table lookup with a frame
property — for an emotion in the table, every blendshape of the table row
present in the input dictionary is set to the maximum of its current value
and the table value, every other key is unchanged, and the key set is
unchanged; for an emotion outside the table the dictionary is returned
unchanged. -/
theorem c5_emotion_overlay_frame (b : Dict ℚ) (emotion : String) :
    (emotion ∉ ["happy", "sad", "excited", "angry"] →
      AnimationService.apply_emotion_overlay b emotion = b) ∧
    (∀ mods, dictLookup AnimationService.emotion_modifiers emotion = some mods →
      dictKeys (AnimationService.apply_emotion_overlay b emotion) = dictKeys b ∧
      ∀ k cur, dictLookup b k = some cur →
        dictLookup (AnimationService.apply_emotion_overlay b emotion) k =
          some (match dictLookup mods k with
                | some mv => max cur mv
                | none => cur)) := by
  constructor
  · intro h
    unfold AnimationService.apply_emotion_overlay
    rw [emotion_modifiers_lookup_none emotion h]
  · intro mods hm
    unfold AnimationService.apply_emotion_overlay
    rw [hm]
    exact ⟨overlay_foldl_keys mods b,
      fun k cur hcur =>
        overlay_foldl_lookup mods b k cur (emotion_modifiers_nodup emotion mods hm) hcur⟩

/-- Witness for C5 on the dictionary `{"mouthSmile_L": 1/2, "zz": 0}` with
emotion `"happy"`: the listed key is raised to `max (1/2) (8/10)` and the
unlisted key `"zz"` keeps its value. -/
theorem c5_emotion_overlay_frame_witness :
    dictLookup
        (AnimationService.apply_emotion_overlay [("mouthSmile_L", 1/2), ("zz", 0)] "happy")
        "mouthSmile_L" = some (max (1/2) (8/10)) ∧
    dictLookup
        (AnimationService.apply_emotion_overlay [("mouthSmile_L", 1/2), ("zz", 0)] "happy")
        "zz" = some 0 := by
  have h := (c5_emotion_overlay_frame [("mouthSmile_L", 1/2), ("zz", 0)] "happy").2
    [("mouthSmile_L", 8/10), ("mouthSmile_R", 8/10), ("cheekSquint_L", 6/10),
     ("cheekSquint_R", 6/10), ("eyeWide_L", 3/10), ("eyeWide_R", 3/10)]
    (by norm_num +decide [AnimationService.emotion_modifiers, dictLookup])
  constructor
  · rw [h.2 "mouthSmile_L" (1/2) (by norm_num +decide [dictLookup])]
    norm_num +decide [dictLookup]
  · rw [h.2 "zz" 0 (by norm_num +decide [dictLookup])]
    norm_num +decide [dictLookup]

theorem calc_lookup_entries (sqrtQ : ℚ → ℚ) (points : List Vec3) :
    dictLookup (AnimationService.calculate_blendshapes_from_landmarks sqrtQ points)
        "eyeBlink_L" =
      some (max 0 (1 - AnimationService.calculate_eye_height points "left" / (1 / 10))) ∧
    dictLookup (AnimationService.calculate_blendshapes_from_landmarks sqrtQ points)
        "eyeBlink_R" =
      some (max 0 (1 - AnimationService.calculate_eye_height points "right" / (1 / 10))) ∧
    dictLookup (AnimationService.calculate_blendshapes_from_landmarks sqrtQ points)
        "jawOpen" =
      some (min 1 (AnimationService.calculate_mouth_height points / (15 / 100))) ∧
    dictLookup (AnimationService.calculate_blendshapes_from_landmarks sqrtQ points)
        "mouthSmile_L" =
      some (AnimationService.calculate_smile_intensity sqrtQ points) ∧
    dictLookup (AnimationService.calculate_blendshapes_from_landmarks sqrtQ points)
        "mouthSmile_R" =
      some (AnimationService.calculate_smile_intensity sqrtQ points) := by
  unfold AnimationService.calculate_blendshapes_from_landmarks
  dsimp only
  refine ⟨?_, ?_, ?_, ?_, ?_⟩ <;>
    (rw [zeroFill_lookup _ _ _ (by rw [dictContains_iff_mem_keys, b5_keys]; decide)]
     simp +decide [dictSet, dictLookup])

/-- C6: for a landmark array long enough for all the fixed index sets,
`eyeBlink_L` / `eyeBlink_R` equal `max 0 (1 − h/0.1)` with `h` the
maximum-minus-minimum y-coordinate over the 16 per-eye indices, `jawOpen`
equals `min 1 (m/0.15)` with `m` the y-extent over the mouth indices
13–32, and `mouthSmile_L` / `mouthSmile_R` equal `min 1 (d/0.3)` with `d`
the (nonnegative) Euclidean distance between landmarks 61 and 291;
for an array too short for an index set the corresponding height defaults
(0.1 for the eyes, yielding weight 0; 0.0 for mouth and smile). -/
theorem c6_landmark_distance_heuristics (sqrtQ : ℚ → ℚ) (lms : List Vec3) :
    (467 ≤ lms.length →
      ∀ d : ℚ, 0 ≤ d →
        d ^ 2 = sqNorm (vsub (lms.getD 61 default) (lms.getD 291 default)) →
        0 ≤ sqrtQ (sqNorm (vsub (lms.getD 61 default) (lms.getD 291 default))) →
        sqrtQ (sqNorm (vsub (lms.getD 61 default) (lms.getD 291 default))) ^ 2 =
          sqNorm (vsub (lms.getD 61 default) (lms.getD 291 default)) →
        dictLookup (AnimationService.calculate_blendshapes_from_landmarks sqrtQ lms)
            "eyeBlink_L" =
          some (max 0 (1 - (listMax (selectY lms AnimationService.leftEyeIndices) -
            listMin (selectY lms AnimationService.leftEyeIndices)) / (1 / 10))) ∧
        dictLookup (AnimationService.calculate_blendshapes_from_landmarks sqrtQ lms)
            "eyeBlink_R" =
          some (max 0 (1 - (listMax (selectY lms AnimationService.rightEyeIndices) -
            listMin (selectY lms AnimationService.rightEyeIndices)) / (1 / 10))) ∧
        dictLookup (AnimationService.calculate_blendshapes_from_landmarks sqrtQ lms)
            "jawOpen" =
          some (min 1 ((listMax (selectY lms AnimationService.mouthIndices) -
            listMin (selectY lms AnimationService.mouthIndices)) / (15 / 100))) ∧
        dictLookup (AnimationService.calculate_blendshapes_from_landmarks sqrtQ lms)
            "mouthSmile_L" = some (min 1 (d / (3 / 10))) ∧
        dictLookup (AnimationService.calculate_blendshapes_from_landmarks sqrtQ lms)
            "mouthSmile_R" = some (min 1 (d / (3 / 10)))) ∧
    (lms.length ≤ 246 →
      dictLookup (AnimationService.calculate_blendshapes_from_landmarks sqrtQ lms)
          "eyeBlink_L" = some 0 ∧
      dictLookup (AnimationService.calculate_blendshapes_from_landmarks sqrtQ lms)
          "eyeBlink_R" = some 0) ∧
    (lms.length ≤ 32 →
      dictLookup (AnimationService.calculate_blendshapes_from_landmarks sqrtQ lms)
          "jawOpen" = some 0 ∧
      dictLookup (AnimationService.calculate_blendshapes_from_landmarks sqrtQ lms)
          "mouthSmile_L" = some 0 ∧
      dictLookup (AnimationService.calculate_blendshapes_from_landmarks sqrtQ lms)
          "mouthSmile_R" = some 0) := by
  obtain ⟨hEL, hER, hJ, hSL, hSR⟩ := calc_lookup_entries sqrtQ lms
  refine ⟨?_, ?_, ?_⟩
  · intro hlen d hd0 hd hsq0 hsq2
    have hLeft : AnimationService.calculate_eye_height lms "left" =
        listMax (selectY lms AnimationService.leftEyeIndices) -
          listMin (selectY lms AnimationService.leftEyeIndices) := by
      have hcond : natListMax AnimationService.leftEyeIndices < lms.length := by
        rw [show natListMax AnimationService.leftEyeIndices = 246 from by decide]
        omega
      unfold AnimationService.calculate_eye_height
      simp +decide [hcond]
    have hRight : AnimationService.calculate_eye_height lms "right" =
        listMax (selectY lms AnimationService.rightEyeIndices) -
          listMin (selectY lms AnimationService.rightEyeIndices) := by
      have hcond : natListMax AnimationService.rightEyeIndices < lms.length := by
        rw [show natListMax AnimationService.rightEyeIndices = 466 from by decide]
        omega
      unfold AnimationService.calculate_eye_height
      simp +decide [hcond]
    have hMouth : AnimationService.calculate_mouth_height lms =
        listMax (selectY lms AnimationService.mouthIndices) -
          listMin (selectY lms AnimationService.mouthIndices) := by
      have hcond : natListMax AnimationService.mouthIndices < lms.length := by
        rw [show natListMax AnimationService.mouthIndices = 32 from by decide]
        omega
      unfold AnimationService.calculate_mouth_height
      simp +decide [hcond]
    have hsd : sqrtQ (sqNorm (vsub (lms.getD 61 default) (lms.getD 291 default))) = d := by
      have hsq : (sqrtQ (sqNorm (vsub (lms.getD 61 default) (lms.getD 291 default)))) ^ 2 =
          d ^ 2 := by rw [hsq2, hd]
      have hfactor :
          (sqrtQ (sqNorm (vsub (lms.getD 61 default) (lms.getD 291 default))) - d) *
            (sqrtQ (sqNorm (vsub (lms.getD 61 default) (lms.getD 291 default))) + d)
            = 0 := by nlinarith [hsq]
      rcases mul_eq_zero.mp hfactor with h | h
      · linarith
      · linarith
    have hSmile : AnimationService.calculate_smile_intensity sqrtQ lms =
        min 1 (d / (3 / 10)) := by
      have hcond : max 61 291 < lms.length := by
        rw [show (max 61 291 : Nat) = 291 from by decide]
        omega
      unfold AnimationService.calculate_smile_intensity
      rw [if_pos hcond, hsd]
    exact ⟨by rw [hEL, hLeft], by rw [hER, hRight], by rw [hJ, hMouth],
      by rw [hSL, hSmile], by rw [hSR, hSmile]⟩
  · intro hlen
    have hval : max (0 : ℚ) (1 - (1 / 10) / (1 / 10)) = 0 := by norm_num
    have hLeft : AnimationService.calculate_eye_height lms "left" = 1 / 10 := by
      have hcond : ¬ natListMax AnimationService.leftEyeIndices < lms.length := by
        rw [show natListMax AnimationService.leftEyeIndices = 246 from by decide]
        omega
      unfold AnimationService.calculate_eye_height
      simp +decide [hcond]
    have hRight : AnimationService.calculate_eye_height lms "right" = 1 / 10 := by
      have hcond : ¬ natListMax AnimationService.rightEyeIndices < lms.length := by
        rw [show natListMax AnimationService.rightEyeIndices = 466 from by decide]
        omega
      unfold AnimationService.calculate_eye_height
      simp +decide [hcond]
    constructor
    · rw [hEL, hLeft, hval]
    · rw [hER, hRight, hval]
  · intro hlen
    have hMouth : AnimationService.calculate_mouth_height lms = 0 := by
      have hcond : ¬ natListMax AnimationService.mouthIndices < lms.length := by
        rw [show natListMax AnimationService.mouthIndices = 32 from by decide]
        omega
      unfold AnimationService.calculate_mouth_height
      simp +decide [hcond]
    have hSmile : AnimationService.calculate_smile_intensity sqrtQ lms = 0 := by
      have hcond : ¬ max 61 291 < lms.length := by
        rw [show (max 61 291 : Nat) = 291 from by decide]
        omega
      unfold AnimationService.calculate_smile_intensity
      rw [if_neg hcond]
    refine ⟨?_, ?_, ?_⟩
    · rw [hJ, hMouth]
      norm_num
    · rw [hSL, hSmile]
    · rw [hSR, hSmile]

/-- Witness for C6 on 467 landmarks all at the origin with the zero
square-root oracle and distance `d = 0`. -/
theorem c6_landmark_distance_heuristics_witness :
    dictLookup
        (AnimationService.calculate_blendshapes_from_landmarks (fun _ => 0)
          (List.replicate 467 default)) "mouthSmile_L" = some (min 1 (0 / (3 / 10))) ∧
    dictLookup
        (AnimationService.calculate_blendshapes_from_landmarks (fun _ => 0)
          (List.replicate 467 default)) "jawOpen" =
      some (min 1 ((listMax (selectY (List.replicate 467 default)
          AnimationService.mouthIndices) -
        listMin (selectY (List.replicate 467 default)
          AnimationService.mouthIndices)) / (15 / 100))) := by
  have hget : ∀ i : Nat, (List.replicate 467 (default : Vec3)).getD i default = default := by
    intro i
    rw [List.getD_eq_getElem?_getD]
    exact List.getElem?_getD_replicate_default_eq _ _ _
  have hs0 : sqNorm (vsub ((List.replicate 467 (default : Vec3)).getD 61 default)
      ((List.replicate 467 (default : Vec3)).getD 291 default)) = 0 := by
    rw [hget, hget]
    simp [sqNorm, vsub]
  have h := (c6_landmark_distance_heuristics (fun _ => 0) (List.replicate 467 default)).1
    (by simp) 0 (le_refl 0) (by rw [hs0]; norm_num) (le_refl 0) (by rw [hs0]; norm_num)
  exact ⟨h.2.2.2.1, h.2.2.1⟩

/-- C7: each chat route handler maps a raised service exception to
`HTTPException(500, str(e))` and otherwise returns the handler's result
built from the service outputs. -/
theorem c7_chat_routes_http_500 :
    (∀ (request : ChatRoutes.ChatRequest) (audio : Except String Unit) (t : ℚ)
        (e : String),
      ChatRoutes.send_message request (Except.error e) audio t =
        Except.error ⟨500, e⟩) ∧
    (∀ (m sid : String) (c p v : Option String) (r : ChatRoutes.LLMResult) (t : ℚ)
        (e : String),
      ChatRoutes.send_message ⟨m, sid, c, p, true, v⟩ (Except.ok r) (Except.error e) t =
        Except.error ⟨500, e⟩) ∧
    (∀ (m sid : String) (c p v : Option String) (r : ChatRoutes.LLMResult) (t : ℚ)
        (u : Unit),
      ChatRoutes.send_message ⟨m, sid, c, p, true, v⟩ (Except.ok r) (Except.ok u) t =
        Except.ok ⟨r.response, sid,
          ChatRoutes.create_complete_animation [] r.animation.gestures
            r.animation.emotion t,
          some ("/api/audio/play/" ++ sid), r.timestamp⟩) ∧
    (∀ (m sid : String) (c p v : Option String) (r : ChatRoutes.LLMResult)
        (audio : Except String Unit) (t : ℚ),
      ChatRoutes.send_message ⟨m, sid, c, p, false, v⟩ (Except.ok r) audio t =
        Except.ok ⟨r.response, sid,
          ChatRoutes.create_complete_animation [] r.animation.gestures
            r.animation.emotion t,
          none, r.timestamp⟩) ∧
    (∀ e : String, ChatRoutes.get_sessions (Except.error e) = Except.error ⟨500, e⟩) ∧
    (∀ store : Dict (List TMsg),
      ChatRoutes.get_sessions (Except.ok store) =
        Except.ok ((store.filter (fun kv => !kv.2.isEmpty)).map
          (fun kv => ⟨kv.1, kv.2.length, (kv.2.headD default).timestamp,
                      (kv.2.getLastD default).timestamp⟩))) ∧
    (∀ (sid e : String),
      ChatRoutes.get_conversation_history sid (Except.error e) =
        Except.error ⟨500, e⟩) ∧
    (∀ (sid : String) (h : List TMsg),
      ChatRoutes.get_conversation_history sid (Except.ok h) = Except.ok ⟨sid, h⟩) ∧
    (∀ (sid e : String),
      ChatRoutes.clear_session sid (Except.error e) = Except.error ⟨500, e⟩) ∧
    (∀ (sid : String) (u : Unit),
      ChatRoutes.clear_session sid (Except.ok u) =
        Except.ok ⟨"Session " ++ sid ++ " cleared successfully"⟩) :=
  ⟨fun _ _ _ _ => rfl, fun _ _ _ _ _ _ _ _ => rfl, fun _ _ _ _ _ _ _ _ => rfl,
   fun _ _ _ _ _ _ _ _ => rfl, fun _ => rfl, fun _ => rfl, fun _ _ => rfl,
   fun _ _ => rfl, fun _ _ => rfl, fun _ _ => rfl⟩

/-- C8: `send_animation_data` is reconnecting — with no stored connection
it first attempts `connect_to_unity` and returns `False` when that fails;
when a send over an established connection raises it resets the stored
connection to `None` and returns `False`; and it returns `True` exactly
when a send over the used connection (stored, or freshly connected)
succeeds. -/
theorem c8_send_animation_data_reconnecting :
    (∀ sendOk : Nat → Bool,
      AnimationService.send_animation_data none none sendOk = (false, none)) ∧
    (∀ (c : Nat) (connectRes : Option Nat) (sendOk : Nat → Bool), sendOk c = false →
      AnimationService.send_animation_data (some c) connectRes sendOk = (false, none)) ∧
    (∀ (ws connectRes : Option Nat) (sendOk : Nat → Bool),
      (AnimationService.send_animation_data ws connectRes sendOk).1 = true ↔
        ∃ c, (match ws with | some c0 => some c0 | none => connectRes) = some c ∧
          sendOk c = true) := by
  refine ⟨fun _ => rfl, ?_, ?_⟩
  · intro c connectRes sendOk h
    show AnimationService.trySend (some c) sendOk = (false, none)
    simp [AnimationService.trySend, h]
  · intro ws connectRes sendOk
    cases ws with
    | some c =>
        unfold AnimationService.send_animation_data AnimationService.trySend
        cases hc : sendOk c <;> simp [hc]
    | none =>
        cases connectRes with
        | none => simp [AnimationService.send_animation_data,
            AnimationService.connect_to_unity]
        | some c =>
            unfold AnimationService.send_animation_data
              AnimationService.connect_to_unity AnimationService.trySend
            cases hc : sendOk c <;> simp [hc]

/-- Witness for C8: with a stored connection `0` whose send fails, the
call returns `False` and resets the stored connection. -/
theorem c8_send_animation_data_reconnecting_witness :
    AnimationService.send_animation_data (some 0) none (fun _ => false) = (false, none) :=
  c8_send_animation_data_reconnecting.2.1 0 none (fun _ => false) rfl

theorem append_two_truncate {α : Type} (h : List α) (u a : α) :
    (if 20 < (h ++ [u, a]).length then
        (h ++ [u, a]).drop ((h ++ [u, a]).length - 20)
      else h ++ [u, a]).length ≤ 20 ∧
    (if 20 < (h ++ [u, a]).length then
        (h ++ [u, a]).drop ((h ++ [u, a]).length - 20)
      else h ++ [u, a]).drop
      ((if 20 < (h ++ [u, a]).length then
          (h ++ [u, a]).drop ((h ++ [u, a]).length - 20)
        else h ++ [u, a]).length - 2) = [u, a] := by
  have hlen : (h ++ [u, a]).length = h.length + 2 := by simp
  by_cases hc : 20 < (h ++ [u, a]).length
  · rw [if_pos hc]
    have hdlen : ((h ++ [u, a]).drop ((h ++ [u, a]).length - 20)).length = 20 := by
      rw [List.length_drop]
      omega
    refine ⟨le_of_eq hdlen, ?_⟩
    rw [hdlen, List.drop_drop]
    rw [show (h ++ [u, a]).length - 20 + (20 - 2) = h.length from by
      rw [hlen] at hc ⊢
      omega]
    exact List.drop_left h [u, a]
  · rw [if_neg hc]
    refine ⟨Nat.le_of_not_lt hc, ?_⟩
    rw [hlen, show h.length + 2 - 2 = h.length from by omega]
    exact List.drop_left h [u, a]

/-- C9: after `_update_conversation_history`, the stored history — per
session id in the `backend` variant, the single global list in the
VirtualHuman variant — has at most 20 messages and ends with the given
user message followed by the given assistant response. -/
theorem c9_conversation_history_bounded :
    (∀ (store : Dict (List TMsg)) (sid u a : String) (t1 t2 : ℚ) (l : List TMsg),
      dictLookup (BackendLLM.update_conversation_history store sid u a t1 t2) sid =
          some l →
        l.length ≤ 20 ∧ l.drop (l.length - 2) = [⟨"user", u, t1⟩, ⟨"assistant", a, t2⟩]) ∧
    (∀ (h : List RoleMsg) (u a : String),
      (VHLLM.update_conversation_history h u a).length ≤ 20 ∧
      (VHLLM.update_conversation_history h u a).drop
          ((VHLLM.update_conversation_history h u a).length - 2) =
        [⟨"user", u⟩, ⟨"assistant", a⟩]) := by
  constructor
  · intro store sid u a t1 t2 l hl
    unfold BackendLLM.update_conversation_history at hl
    dsimp only at hl
    rw [dictLookup_dictSet, if_pos rfl] at hl
    injection hl with hl
    rw [← hl]
    have hmain := append_two_truncate
      ((dictLookup (if dictContains store sid = true then store
          else dictSet store sid []) sid).getD [])
      (⟨"user", u, t1⟩ : TMsg) (⟨"assistant", a, t2⟩ : TMsg)
    simpa [List.append_assoc] using hmain
  · intro h u a
    unfold VHLLM.update_conversation_history
    dsimp only
    exact append_two_truncate h ⟨"user", u⟩ ⟨"assistant", a⟩

/-- Witness for C9's backend conjunct: updating an empty store leaves a
two-message history ending in the given user/assistant pair. -/
theorem c9_conversation_history_bounded_witness :
    ([(⟨"user", "hi", 1⟩ : TMsg), ⟨"assistant", "ok", 2⟩] : List TMsg).length ≤ 20 ∧
    ([(⟨"user", "hi", 1⟩ : TMsg), ⟨"assistant", "ok", 2⟩] : List TMsg).drop
        (([(⟨"user", "hi", 1⟩ : TMsg), ⟨"assistant", "ok", 2⟩] : List TMsg).length - 2) =
      [⟨"user", "hi", 1⟩, ⟨"assistant", "ok", 2⟩] :=
  c9_conversation_history_bounded.1 [] "s1" "hi" "ok" 1 2
    [⟨"user", "hi", 1⟩, ⟨"assistant", "ok", 2⟩]
    (by simp +decide [BackendLLM.update_conversation_history, dictContains, dictSet,
      dictLookup])

/-- Counterexample for C4 as stated: in the `backend` variant, a missing
(or empty) OpenAI API key makes `LLMService.initialize` raise
`ValueError("OpenAI API key not configured")` — there is no demo-mode
fallback in that variant. -/
theorem c4_backend_raises_counterexample :
    BackendLLM.initLLM none = Except.error "OpenAI API key not configured" ∧
    BackendLLM.initLLM (some "") = Except.error "OpenAI API key not configured" :=
  ⟨rfl, rfl⟩

/-- C4 (amended): in the VirtualHuman variant, a missing, empty or
placeholder API key makes initialization turn demo mode on instead of
failing, and `generate_response` then returns the canned demo response
tagged with mode `"demo"`, independently of the vendor-API outcome (the
API is never consulted on this path). -/
theorem c4_missing_api_key_demo_mode (apiKey : Option String) (st : VHLLM.State)
    (h : optStrFalsy apiKey = true ∨ apiKey = some "your_openai_api_key_here") :
    (VHLLM.initLLM apiKey st).demo_mode = true ∧
    (VHLLM.initLLM apiKey st).is_healthy = true ∧
    (VHLLM.initLLM apiKey st).client = none ∧
    ∀ (input : String) (sid : Option String) (api api2 : Except String String),
      (VHLLM.generate_response (VHLLM.initLLM apiKey st) input sid api).1.mode = "demo" ∧
      (VHLLM.generate_response (VHLLM.initLLM apiKey st) input sid api).1.response =
        VHLLM.generate_demo_response input ∧
      VHLLM.generate_response (VHLLM.initLLM apiKey st) input sid api =
        VHLLM.generate_response (VHLLM.initLLM apiKey st) input sid api2 := by
  have hcond : (optStrFalsy apiKey || apiKey = some "your_openai_api_key_here") = true := by
    rcases h with h | h <;> simp [h]
  have hst : VHLLM.initLLM apiKey st =
      { st with client := none, is_healthy := true, demo_mode := true } := by
    unfold VHLLM.initLLM
    rw [if_pos hcond]
  rw [hst]
  exact ⟨rfl, rfl, rfl, fun input sid api api2 => ⟨rfl, rfl, rfl⟩⟩

/-- Witness for the amended C4 at the concrete inputs `apiKey = None`,
a fresh state and user input `"xyz"`. -/
theorem c4_missing_api_key_demo_mode_witness :
    (VHLLM.generate_response (VHLLM.initLLM none ⟨none, false, false, []⟩) "xyz" none
        (Except.ok "ignored")).1.mode = "demo" ∧
    VHLLM.generate_response (VHLLM.initLLM none ⟨none, false, false, []⟩) "xyz" none
        (Except.ok "ignored") =
      VHLLM.generate_response (VHLLM.initLLM none ⟨none, false, false, []⟩) "xyz" none
        (Except.error "down") := by
  have h := (c4_missing_api_key_demo_mode none ⟨none, false, false, []⟩
    (Or.inl rfl)).2.2.2 "xyz" none (Except.ok "ignored") (Except.error "down")
  exact ⟨h.1, h.2.2⟩

end ChatAion
